import Mathlib

/-!
Verification of the Leviathan whale-transaction tracker core
(src/fetcher/transactions.py, src/bot/bot.py, src/whale_bot_integration.py).

The pure decision logic of the tracker is embedded shallowly: Python dicts
become structures with `Option` fields for keys that may be absent, Python
floats for USD amounts become rationals, and the two stateful pieces
(threshold configuration and the alert seen-set) become explicit state
passing.  Each definition is translated clause by clause from the source;
`_spec` definitions restate the natural-language specification for
comparison with the code.
-/

namespace Leviathan

/-! ### String helpers modelling the Python primitives used by the tracker -/

/-- Models Python `str.lower()`.  Restricted to ASCII case mapping, which is
exact for every string that occurs in this development. -/
def lowerStr (s : String) : String := ⟨s.data.map Char.toLower⟩

/-- Models Python `str.upper()` (ASCII range). -/
def upperStr (s : String) : String := ⟨s.data.map Char.toUpper⟩

/-- Occurrence of `sub` as a contiguous sublist of `l`, tested positionally. -/
def listContains [BEq α] (sub : List α) : List α → Bool
  | [] => sub.isEmpty
  | a :: l => sub.isPrefixOf (a :: l) || listContains sub l

/-- Models the Python substring test `sub in s`. -/
def strContains (s sub : String) : Bool := listContains sub.data s.data

/-- Models the Python slice `s[:n]`. -/
def takeStr (s : String) (n : Nat) : String := ⟨s.data.take n⟩

/-- Models Python `s.startswith(p)`. -/
def startsWithStr (s p : String) : Bool := p.data.isPrefixOf s.data

/-! ### Entity directory (`WhaleTracker.known_addresses`, transactions.py 56-80) -/

/-- The `exchanges` table of `WhaleTracker.known_addresses`. -/
def known_exchanges : List (String × String) := [
  ("bc1qgdjqv0av3q56jvd82tkdjpy7gdp9ut8tlqmgrpmv24sq90ecnvqqjwvw97", "Coinbase"),
  ("3M219KBk7ZjsPUe7UpzPcTg1z5y7R25Acz", "Coinbase"),
  ("bc1qar0srrr7xfkvy5l643lydnw9re59gtzzwf5mdq", "Coinbase"),
  ("3FupZp77ySr7jwoLYBUagcEp3nhKxggdy5", "Coinbase"),
  ("bc1qjasf9z3h7w3jspkhtgatgpyvvzgpa2wwd2lr0eh5tx44reyn2k7sfc27a4", "Kraken"),
  ("3BMEXhash77KHeEqgQkZTBC5m4D7dTwq6J", "Kraken"),
  ("bc1qxy2kgdygjrsqtzq2n0yrf2493p83kkfjhx0wlh", "Kraken"),
  ("bc1qmxjefnuy06v345v6vhwpwt05dztztmx2xajzd6xtzch7cceh6k8q7xl5ah", "Gemini"),
  ("3DZ1K9a8rQn3qNLNLHbfkKBtkGWbMw6xhF", "Gemini"),
  ("bc1qm34lsc65zpw79lxes69zkqmk6ee3ewf0j77s3h", "Binance (Non-US)"),
  ("34xp4vRoCGJym3xR7yCVPFHoCNxv4Twseo", "Binance (Non-US)")]

/-- The `mixing_services` table of `WhaleTracker.known_addresses`. -/
def mixing_services : List (String × String) := [("1mixer", "Mixing Service")]

/-! ### Address classification (`WhaleTracker.classify_address`, lines 91-119) -/

/-- `WhaleTracker.classify_address`, translated clause by clause: falsy-address
guard, exact directory lookup, mixing-service substring scan over the lowered
address, then the prefix/length heuristics. -/
def classify_address (address : String) : String × String :=
  if address = "" then ("unknown", "Unknown")
  else
    match List.lookup address known_exchanges with
    | some name => ("exchange", name)
    | none =>
      match mixing_services.find? (fun pn => strContains (lowerStr address) pn.1) with
      | some pn => ("mixer", pn.2)
      | none =>
        if startsWithStr address "bc1q" then
          if address.length > 50 then ("wallet", "Cold Storage (Bech32)")
          else ("wallet", "Personal Wallet (Bech32)")
        else if startsWithStr address "3" then ("wallet", "Multi-sig Wallet")
        else if startsWithStr address "1" then ("wallet", "Legacy Wallet")
        else ("unknown", "Unknown Address Type")

/-- `AddressClassifier.classify` as worded in spec section 4.3: the
mixing-service comparison is case-insensitive, so both the address and the
configured pattern are lowered before the substring test. -/
def classify_address_spec (address : String) : String × String :=
  if address = "" then ("unknown", "Unknown")
  else
    match List.lookup address known_exchanges with
    | some name => ("exchange", name)
    | none =>
      match mixing_services.find? (fun pn => strContains (lowerStr address) (lowerStr pn.1)) with
      | some pn => ("mixer", pn.2)
      | none =>
        if startsWithStr address "bc1q" then
          if address.length > 50 then ("wallet", "Cold Storage (Bech32)")
          else ("wallet", "Personal Wallet (Bech32)")
        else if startsWithStr address "3" then ("wallet", "Multi-sig Wallet")
        else if startsWithStr address "1" then ("wallet", "Legacy Wallet")
        else ("unknown", "Unknown Address Type")

/-! ### Transaction pattern analysis (`analyze_transaction_pattern`, lines 121-156) -/

/-- One transaction input as consumed by the tracker; `prev_out_addr` is the
address found under `prev_out`/`addr` when both keys are present. -/
structure TxInput where
  prev_out_addr : Option String
deriving DecidableEq

/-- One transaction output; `addr` is absent for non-standard scripts,
`value` is in satoshi (Python `out.get('value', 0)`). -/
structure TxOutput where
  addr : Option String
  value : Nat
deriving DecidableEq

/-- A raw transaction as delivered by the block explorer. -/
structure RawTx where
  hash : String
  inputs : List TxInput
  out : List TxOutput
  time : Int
deriving DecidableEq

/-- The distinct input addresses of a transaction (the Python code collects
them into a set; only the cardinality is ever used). -/
def input_addresses (tx : RawTx) : List String :=
  (tx.inputs.filterMap (·.prev_out_addr)).dedup

/-- The distinct output addresses of a transaction. -/
def output_addresses (tx : RawTx) : List String :=
  (tx.out.filterMap (·.addr)).dedup

/-- `WhaleTracker.analyze_transaction_pattern`.  Note the emptiness guard is
on the raw `inputs`/`out` lists; the cardinality rules then run on the
deduplicated address sets. -/
def analyze_transaction_pattern (tx : RawTx) : String :=
  if tx.inputs = [] ∨ tx.out = [] then "unknown"
  else
    let nIn := (input_addresses tx).length
    let nOut := (output_addresses tx).length
    if nIn = 1 ∧ nOut = 1 then "simple_transfer"
    else if nIn = 1 ∧ nOut = 2 then "wallet_transfer"
    else if nIn > 5 ∧ nOut = 1 then "consolidation"
    else if nIn = 1 ∧ nOut > 10 then "distribution"
    else if nIn > 1 ∧ nOut > 1 then "complex_transaction"
    else "standard_transaction"

/-- The seven rules of spec section 4.2 as worded there, a pure function of
the address-set cardinalities; rule 1 reads the address-set sizes. -/
def pattern_rules (nIn nOut : Nat) : String :=
  if nIn = 0 ∨ nOut = 0 then "unknown"
  else if nIn = 1 ∧ nOut = 1 then "simple_transfer"
  else if nIn = 1 ∧ nOut = 2 then "wallet_transfer"
  else if nIn > 5 ∧ nOut = 1 then "consolidation"
  else if nIn = 1 ∧ nOut > 10 then "distribution"
  else if nIn > 1 ∧ nOut > 1 then "complex_transaction"
  else "standard_transaction"

/-- Rules 2-7 of spec section 4.2 (everything after the emptiness rule). -/
def pattern_rules_tail (nIn nOut : Nat) : String :=
  if nIn = 1 ∧ nOut = 1 then "simple_transfer"
  else if nIn = 1 ∧ nOut = 2 then "wallet_transfer"
  else if nIn > 5 ∧ nOut = 1 then "consolidation"
  else if nIn = 1 ∧ nOut > 10 then "distribution"
  else if nIn > 1 ∧ nOut > 1 then "complex_transaction"
  else "standard_transaction"

/-- A coinbase-style transaction: one input carrying no previous-output
address, one addressed output.  Its input address set is empty while the raw
input list is not. -/
def tx_coinbase_like : RawTx :=
  { hash := "cb", inputs := [⟨none⟩], out := [⟨some "a", 5000000000⟩], time := 0 }


/-! ### Classified addresses and transaction-type resolution
(`BitcoinWhaleMonitor._determine_transaction_type`, lines 166-205) -/

/-- One classified-address dict as appended by the monitors: the Python keys
are `address`, `type`, `entity`, and (for outputs only) `value`. -/
structure ClassifiedAddress where
  address : String
  type : String
  entity : String
  value : Option ℚ := none
deriving DecidableEq

/-- `BitcoinWhaleMonitor._determine_transaction_type`, translated clause by
clause from the source. -/
def determine_transaction_type (from_addresses to_addresses : List ClassifiedAddress)
    (pattern : String) : String :=
  if from_addresses = [] ∨ to_addresses = [] then "unknown_transfer"
  else
    let from_types := from_addresses.map (·.type)
    let to_types := to_addresses.map (·.type)
    if "exchange" ∈ from_types ∧ "wallet" ∈ to_types then "exchange_withdrawal"
    else if "wallet" ∈ from_types ∧ "exchange" ∈ to_types then "exchange_deposit"
    else if "exchange" ∈ from_types ∧ "exchange" ∈ to_types then "exchange_transfer"
    else if ∀ t ∈ from_types ++ to_types, t = "wallet" then
      if pattern = "consolidation" then "wallet_consolidation"
      else if pattern = "distribution" then "wallet_distribution"
      else "wallet_transfer"
    else if "mixer" ∈ from_types ∨ "mixer" ∈ to_types then "privacy_transaction"
    else if pattern = "consolidation" then "funds_consolidation"
    else if pattern = "distribution" then "funds_distribution"
    else "large_transfer"

/-- `TransactionTypeResolver.resolve` as worded in spec section 4.4, over the
categories present on each side (membership in the set of categories present
on a side is membership in that side's category list); rule 5 reads "every
category on both sides is exactly wallet". -/
def resolve_spec (from_addresses to_addresses : List ClassifiedAddress)
    (pattern : String) : String :=
  if from_addresses = [] ∨ to_addresses = [] then "unknown_transfer"
  else
    let fromCats := from_addresses.map (·.type)
    let toCats := to_addresses.map (·.type)
    if "exchange" ∈ fromCats ∧ "wallet" ∈ toCats then "exchange_withdrawal"
    else if "wallet" ∈ fromCats ∧ "exchange" ∈ toCats then "exchange_deposit"
    else if "exchange" ∈ fromCats ∧ "exchange" ∈ toCats then "exchange_transfer"
    else if (∀ c ∈ fromCats, c = "wallet") ∧ (∀ c ∈ toCats, c = "wallet") then
      if pattern = "consolidation" then "wallet_consolidation"
      else if pattern = "distribution" then "wallet_distribution"
      else "wallet_transfer"
    else if "mixer" ∈ fromCats ∨ "mixer" ∈ toCats then "privacy_transaction"
    else if pattern = "consolidation" then "funds_consolidation"
    else if pattern = "distribution" then "funds_distribution"
    else "large_transfer"

/-- A directory exchange address, classified. -/
def addr_exchange : ClassifiedAddress :=
  { address := "3M219KBk7ZjsPUe7UpzPcTg1z5y7R25Acz", type := "exchange", entity := "Coinbase" }

/-- A mixer address, classified. -/
def addr_mixer : ClassifiedAddress :=
  { address := "1mixerHELLO", type := "mixer", entity := "Mixing Service" }

/-- A legacy wallet address, classified. -/
def addr_wallet : ClassifiedAddress :=
  { address := "1abcdef", type := "wallet", entity := "Legacy Wallet" }

/-! ### Thresholds and whale-event records -/

/-- The pair of mutable USD thresholds held by `WhaleTracker` (lines 41-42);
also the state mutated by the `whale_config` bot command. -/
structure Thresholds where
  btc_threshold : ℚ
  eth_threshold : ℚ
deriving DecidableEq

/-- A whale-activity record as built by the monitors.  The Python code passes
these around as dicts; keys that a given producer does not set are `none`.
The Python `from`/`to` keys are spelled `from_`/`to_`. -/
structure WhaleData where
  type : String
  hash : Option String := none
  btc_amount : Option ℚ := none
  eth_amount : Option ℚ := none
  usd_value : Option ℚ := none
  timestamp : Option Int := none
  transaction_type : Option String := none
  pattern : Option String := none
  from_addresses : List ClassifiedAddress := []
  to_addresses : List ClassifiedAddress := []
  total_inputs : Option Nat := none
  total_outputs : Option Nat := none
  from_ : Option String := none
  to_ : Option String := none
  exchange : Option String := none
  symbol : Option String := none
  side : Option String := none
  price : Option ℚ := none
  quantity : Option ℚ := none
deriving DecidableEq

/-! ### On-chain batch scan (`BitcoinWhaleMonitor.fetch_large_transactions`,
lines 237-293; the HTTP fetch of the block is the excluded collaborator) -/

/-- Total output value of a transaction in satoshi (line 240). -/
def total_output (tx : RawTx) : Nat := (tx.out.map (·.value)).sum

/-- USD value assigned to a transaction: satoshi / 1e8 * current price
(lines 241-242). -/
def tx_usd_value (btc_price : ℚ) (tx : RawTx) : ℚ :=
  ((total_output tx : ℚ) / 100000000) * btc_price

/-- The classified from-address dicts (lines 253-261), one per input that
carries an address, in input order, not deduplicated. -/
def classified_from (tx : RawTx) : List ClassifiedAddress :=
  tx.inputs.filterMap fun inp =>
    inp.prev_out_addr.map fun a =>
      { address := a, type := (classify_address a).1, entity := (classify_address a).2 }

/-- The classified to-address dicts (lines 264-273), carrying the output's
BTC value. -/
def classified_to (tx : RawTx) : List ClassifiedAddress :=
  tx.out.filterMap fun o =>
    o.addr.map fun a =>
      { address := a, type := (classify_address a).1, entity := (classify_address a).2,
        value := some ((o.value : ℚ) / 100000000) }

/-- The record appended for one qualifying transaction (lines 278-291).  The
enclosing block's height is metadata of the surrounding HTTP fetch and is not
modelled. -/
def build_bitcoin_event (btc_price : ℚ) (tx : RawTx) : WhaleData :=
  let pat := analyze_transaction_pattern tx
  { type := "bitcoin_transfer",
    hash := some tx.hash,
    btc_amount := some ((total_output tx : ℚ) / 100000000),
    usd_value := some (tx_usd_value btc_price tx),
    timestamp := some tx.time,
    transaction_type :=
      some (determine_transaction_type (classified_from tx) (classified_to tx) pat),
    pattern := some pat,
    from_addresses := (classified_from tx).take 3,
    to_addresses := (classified_to tx).take 3,
    total_inputs := some tx.inputs.length,
    total_outputs := some tx.out.length }

/-- The pure filtering core of `fetch_large_transactions` over an
already-fetched list of block transactions. -/
def fetch_large_transactions (btc_price : ℚ) (t : Thresholds) (txs : List RawTx) :
    List WhaleData :=
  txs.filterMap fun tx =>
    if t.btc_threshold ≤ tx_usd_value btc_price tx then
      some (build_bitcoin_event btc_price tx)
    else none

/-! ### Ethereum batch scan (`fetch_large_eth_transfers`, lines 412-427) -/

/-- One Ethereum transaction from a fetched block; `value` is the wei amount
decoded from the hex field (0 models both a missing value and `0x0`). -/
structure EthRawTx where
  hash : String
  value : Nat
  from_ : String
  to_ : String
deriving DecidableEq

/-- The pure filtering core of `fetch_large_eth_transfers` over one block's
transaction list; the block number is fetch metadata and not modelled. -/
def fetch_large_eth_transfers (eth_price : ℚ) (t : Thresholds) (txs : List EthRawTx) :
    List WhaleData :=
  txs.filterMap fun tx =>
    if tx.value ≠ 0 then
      let eth_amount : ℚ := (tx.value : ℚ) / 10 ^ 18
      let usd := eth_amount * eth_price
      if t.eth_threshold ≤ usd then
        some { type := "ethereum_transfer", hash := some tx.hash,
               eth_amount := some eth_amount, usd_value := some usd,
               from_ := some tx.from_, to_ := some tx.to_ }
      else none
    else none

/-! ### Order-book monitors (`ExchangeMonitor`, lines 451-610) -/

/-- An order-book snapshot normalized to (price, quantity) levels per side. -/
structure OrderBook where
  bids : List (ℚ × ℚ)
  asks : List (ℚ × ℚ)
deriving DecidableEq

/-- Threshold chosen by the Coinbase Pro / Kraken monitors inside the level
loop: `btc_threshold if 'BTC' in symbol else eth_threshold` (line 466). -/
def orderbook_threshold (t : Thresholds) (symbol : String) : ℚ :=
  if strContains symbol "BTC" then t.btc_threshold else t.eth_threshold

/-- Threshold chosen by the Gemini monitor: the lowercase test
`'btc' in symbol` (line 575). -/
def gemini_threshold (t : Thresholds) (symbol : String) : ℚ :=
  if strContains symbol "btc" then t.btc_threshold else t.eth_threshold

/-- One order dict as appended by `monitor_coinbase_pro_orderbook`. -/
def coinbase_order (symbol side : String) (level : ℚ × ℚ) : WhaleData :=
  { type := "exchange_order", exchange := some "coinbase_pro", symbol := some symbol,
    side := some side, price := some level.1, quantity := some level.2,
    usd_value := some (level.1 * level.2) }

/-- The pure core of `monitor_coinbase_pro_orderbook` (lines 461-495): the
bids loop appends qualifying buy orders, then the asks loop appends
qualifying sell orders. -/
def monitor_coinbase_pro_orderbook (t : Thresholds) (symbol : String) (book : OrderBook) :
    List WhaleData :=
  (book.bids.filterMap fun level =>
    if orderbook_threshold t symbol ≤ level.1 * level.2 then
      some (coinbase_order symbol "buy" level)
    else none)
  ++ (book.asks.filterMap fun level =>
    if orderbook_threshold t symbol ≤ level.1 * level.2 then
      some (coinbase_order symbol "sell" level)
    else none)

/-- One order dict as appended by `monitor_gemini_orderbook`; the symbol is
upper-cased for display (line 580). -/
def gemini_order (symbol side : String) (level : ℚ × ℚ) : WhaleData :=
  { type := "exchange_order", exchange := some "gemini", symbol := some (upperStr symbol),
    side := some side, price := some level.1, quantity := some level.2,
    usd_value := some (level.1 * level.2) }

/-- The pure core of `monitor_gemini_orderbook` (lines 568-606). -/
def monitor_gemini_orderbook (t : Thresholds) (symbol : String) (book : OrderBook) :
    List WhaleData :=
  (book.bids.filterMap fun level =>
    if gemini_threshold t symbol ≤ level.1 * level.2 then
      some (gemini_order symbol "buy" level)
    else none)
  ++ (book.asks.filterMap fun level =>
    if gemini_threshold t symbol ≤ level.1 * level.2 then
      some (gemini_order symbol "sell" level)
    else none)

/-! ### Alert formatting (`WhaleAlert.format_alert_message`, lines 671-694) -/

/-- Abstraction of the Python number renderings `{:.2f}` and `{:,.2f}`; the
rounding and digit grouping are presentation details no claim depends on. -/
def fmt_money (q : ℚ) : String := toString q

/-- Abstraction of `datetime.fromtimestamp(..).strftime(..)`. -/
def fmt_time (ts : Int) : String := toString ts

/-- Models Python `str.title()` on the one-word strings used in alerts. -/
def title_str (s : String) : String :=
  match s.data with
  | [] => ""
  | c :: rest => ⟨Char.toUpper c :: rest.map Char.toLower⟩

/-- The generic fallback line of `format_alert_message` (line 694), built
from `whale_data.get('usd_value', 0)`. -/
def fallback_message (usd : ℚ) : String :=
  "🐋 Whale activity detected: $" ++ fmt_money usd

/-- `WhaleAlert.format_alert_message`.  Recognized variants read their fields
with Python's raising `[]` indexing, modelled by `Option` bind (a missing key
is `none`); any other `type` tag takes the generic fallback with
`usd_value` defaulted to 0. -/
def format_alert_message (w : WhaleData) : Option String :=
  if w.type = "bitcoin_transfer" then do
    let amount ← w.btc_amount
    let usd ← w.usd_value
    let h ← w.hash
    let ts ← w.timestamp
    pure ("🐋 **Bitcoin Whale Alert** 🐋\n💰 **Amount:** " ++ fmt_money amount
      ++ " BTC ($" ++ fmt_money usd ++ ")\n📋 **Hash:** `" ++ takeStr h 16
      ++ "...`\n⏰ **Time:** " ++ fmt_time ts)
  else if w.type = "ethereum_transfer" then do
    let amount ← w.eth_amount
    let usd ← w.usd_value
    let h ← w.hash
    let f ← w.from_
    let t ← w.to_
    pure ("🐋 **Ethereum Whale Alert** 🐋\n💰 **Amount:** " ++ fmt_money amount
      ++ " ETH ($" ++ fmt_money usd ++ ")\n📋 **Hash:** `" ++ takeStr h 16
      ++ "...`\n👤 **From:** `" ++ takeStr f 10 ++ "...`\n👤 **To:** `"
      ++ takeStr t 10 ++ "...`")
  else if w.type = "exchange_order" then do
    let sd ← w.side
    let ex ← w.exchange
    let sym ← w.symbol
    let usd ← w.usd_value
    let pr ← w.price
    let emoji := if sd = "buy" then "📈" else "📉"
    pure (emoji ++ " **Large " ++ title_str sd ++ " Order** " ++ emoji
      ++ "\n🏛️ **Exchange:** " ++ title_str ex ++ "\n💱 **Symbol:** " ++ sym
      ++ "\n💰 **Value:** $" ++ fmt_money usd ++ "\n💵 **Price:** $" ++ fmt_money pr)
  else
    some (fallback_message (w.usd_value.getD 0))

/-! ### Alert dispatch and deduplication (`WhaleAlert.send_alert`, lines 696-719) -/

/-- What one `send_alert` call does: log-only (no webhook configured),
silently suppress a duplicate, or send the formatted message. -/
inductive AlertAction where
  | logged : Option String → AlertAction
  | suppressed : AlertAction
  | sent : Option String → AlertAction
deriving DecidableEq

/-- The dedup fingerprint (line 703): the Python f-string concatenating
`hash`-or-empty, `symbol`-or-empty and `usd_value`-or-0; numeric rendering is
`toString`. -/
def alert_id (w : WhaleData) : String :=
  w.hash.getD "" ++ w.symbol.getD "" ++ toString (w.usd_value.getD 0)

/-- `WhaleAlert.send_alert` as a transition on the `seen_transactions` set
(kept as a duplicate-free list).  Without a webhook it logs the formatted
message and returns at once; with a webhook it suppresses seen fingerprints,
otherwise records the fingerprint and sends.  The webhook POST itself is
external I/O, represented by the `sent` action carrying the message. -/
def send_alert (webhook_url : Option String) (seen : List String) (w : WhaleData) :
    AlertAction × List String :=
  match webhook_url with
  | none => (AlertAction.logged (format_alert_message w), seen)
  | some _ =>
    let aid := alert_id w
    if aid ∈ seen then (AlertAction.suppressed, seen)
    else (AlertAction.sent (format_alert_message w), aid :: seen)

/-! ### Threshold configuration (`whale_config`, bot.py lines 181-214 and
whale_bot_integration.py lines 107-140; the two implementations mutate the
same two tracker fields with the same logic) -/

/-- The threshold-updating core of the `whale_config` command: each supplied
value is assigned to the tracker unconditionally, a missing value leaves the
field unchanged.  The command parameters are integers. -/
def whale_config (t : Thresholds) (btc_threshold eth_threshold : Option Int) : Thresholds :=
  let t1 := match btc_threshold with
    | some v => { t with btc_threshold := (v : ℚ) }
    | none => t
  match eth_threshold with
  | some v => { t1 with eth_threshold := (v : ℚ) }
  | none => t1

/-! ### Concrete records used to exercise the theorems -/

/-- A transaction whose USD value lands exactly on the BTC threshold when the
price is 1000000: one output of 100000000 satoshi, i.e. 1 BTC. -/
def tx_boundary : RawTx :=
  { hash := "boundary", inputs := [⟨some "1addrA"⟩], out := [⟨some "1addrB", 100000000⟩],
    time := 0 }

/-- The order event of spec Scenario D: price 70000, quantity 20. -/
def sample_order : WhaleData := coinbase_order "BTC-USD" "buy" (70000, 20)

/-- An event whose variant tag no formatter branch recognizes. -/
def dex_event : WhaleData := { type := "dex_swap", usd_value := some 42 }

/-! ### Helper lemmas -/

lemma find?_congr {α : Type} {p q : α → Bool} :
    ∀ {l : List α}, (∀ x ∈ l, p x = q x) → l.find? p = l.find? q := by
  intro l
  induction l with
  | nil => intro _; rfl
  | cons a l ih =>
    intro h
    have ha : p a = q a := h a (by simp)
    simp only [List.find?]
    rw [ha]
    cases q a
    · exact ih fun x hx => h x (by simp [hx])
    · rfl

lemma filterMap_guard {α β : Type} (f : α → β) (c : α → Prop) [DecidablePred c]
    (l : List α) :
    (l.filterMap fun x => if c x then some (f x) else none)
      = (l.filter fun x => decide (c x)).map f := by
  induction l with
  | nil => rfl
  | cons a l ih => by_cases h : c a <;> simp [h, ih]

/-! ### Claim C1: structural-pattern rules -/

/-- C1 counterexample.  On a coinbase-style transaction — a nonempty raw
input list none of whose entries carries an address — the deduplicated input
address set is empty, so rule 1 of spec section 4.2 demands `unknown`; the
code, whose emptiness guard reads the raw lists instead, falls through the
cardinality rules to `standard_transaction`. -/
theorem C1_pattern_counterexample :
    analyze_transaction_pattern tx_coinbase_like = "standard_transaction" ∧
    pattern_rules (input_addresses tx_coinbase_like).length
      (output_addresses tx_coinbase_like).length = "unknown" ∧
    input_addresses tx_coinbase_like = [] ∧
    tx_coinbase_like.inputs ≠ [] := by
  refine ⟨by decide, by decide, by decide, by decide⟩

/-- C1 as amended: the pattern is `unknown` exactly when the raw `inputs` or
`out` list is empty; otherwise rules 2-7 of spec section 4.2 are evaluated,
in the stated priority order, on the cardinalities of the deduplicated
address sets (so an address-set cardinality of zero arising from address-less
entries is handled by rules 2-7, not by rule 1). -/
theorem C1_pattern_amended (tx : RawTx) :
    analyze_transaction_pattern tx =
      if tx.inputs = [] ∨ tx.out = [] then "unknown"
      else pattern_rules_tail (input_addresses tx).length (output_addresses tx).length :=
  rfl

/-! ### Claim C2: transaction-type resolution -/

/-- C2.  The code's transaction-type derivation agrees with the seven rules
of spec section 4.4 in their stated priority order, and in particular
exchange-on-from plus wallet-on-to yields `exchange_withdrawal` regardless of
any mixer category present on either side. -/
theorem C2_transaction_type_resolver (f t : List ClassifiedAddress) (p : String) :
    determine_transaction_type f t p = resolve_spec f t p ∧
    (f ≠ [] → t ≠ [] → "exchange" ∈ f.map (·.type) → "wallet" ∈ t.map (·.type) →
      determine_transaction_type f t p = "exchange_withdrawal") := by
  constructor
  · simp only [determine_transaction_type, resolve_spec, List.forall_mem_append]
  · intro hf ht hx hw
    simp [determine_transaction_type, hf, ht, hx, hw]

/-- C2 witness: an exchange address and a mixer address on the from side, a
wallet on the to side — the mixer notwithstanding, the result is
`exchange_withdrawal`. -/
theorem C2_transaction_type_resolver_witness :
    determine_transaction_type [addr_exchange, addr_mixer] [addr_wallet] "simple_transfer"
      = "exchange_withdrawal" :=
  (C2_transaction_type_resolver [addr_exchange, addr_mixer] [addr_wallet]
    "simple_transfer").2 (by decide) (by decide) (by decide) (by decide)

/-! ### Claim C3: address classification -/

/-- C3.  The code's address classifier follows exactly the decision order of
spec section 4.3 (the two sides differ only in that the spec lowers the
mixing-service pattern before the case-insensitive comparison, which the
code's lowercase pattern table makes immaterial), and a directory-listed
address is classified from the directory unconditionally. -/
theorem C3_address_classifier (a : String) :
    classify_address a = classify_address_spec a ∧
    ∀ n, List.lookup a known_exchanges = some n → classify_address a = ("exchange", n) := by
  constructor
  · unfold classify_address classify_address_spec
    have hfind : mixing_services.find? (fun pn => strContains (lowerStr a) pn.1)
        = mixing_services.find? (fun pn => strContains (lowerStr a) (lowerStr pn.1)) := by
      apply find?_congr
      intro x hx
      simp only [mixing_services, List.mem_singleton] at hx
      subst hx
      rfl
    rw [hfind]
  · intro n hn
    have ha : a ≠ "" := by
      intro he
      rw [he, show List.lookup "" known_exchanges = none from by decide] at hn
      cases hn
    simp [classify_address, ha, hn]

/-- C3 witness: a directory address whose prefix 3 would otherwise classify
it as a multi-sig wallet is classified from the directory. -/
theorem C3_address_classifier_witness :
    classify_address "3M219KBk7ZjsPUe7UpzPcTg1z5y7R25Acz" = ("exchange", "Coinbase") :=
  (C3_address_classifier "3M219KBk7ZjsPUe7UpzPcTg1z5y7R25Acz").2 "Coinbase" (by decide)

/-! ### Claim C4: threshold filtering on both paths -/

/-- C4.  A record is admitted iff its USD value is at least the asset's
threshold, on the on-chain path (BTC threshold) and on the order-book path
(the symbol's threshold); the boundary value passes on both.  The embedded
checks are pure functions of their inputs. -/
theorem C4_threshold_filter (t : Thresholds) (price p q : ℚ) (tx : RawTx) (sym : String) :
    (fetch_large_transactions price t [tx] = [build_bitcoin_event price tx] ↔
      t.btc_threshold ≤ tx_usd_value price tx) ∧
    (fetch_large_transactions price t [tx] = [] ↔
      ¬ t.btc_threshold ≤ tx_usd_value price tx) ∧
    (tx_usd_value price tx = t.btc_threshold →
      fetch_large_transactions price t [tx] = [build_bitcoin_event price tx]) ∧
    (monitor_coinbase_pro_orderbook t sym ⟨[(p, q)], []⟩ = [coinbase_order sym "buy" (p, q)] ↔
      orderbook_threshold t sym ≤ p * q) ∧
    (p * q = orderbook_threshold t sym →
      monitor_coinbase_pro_orderbook t sym ⟨[(p, q)], []⟩ = [coinbase_order sym "buy" (p, q)]) := by
  have h1 : fetch_large_transactions price t [tx] = [build_bitcoin_event price tx] ↔
      t.btc_threshold ≤ tx_usd_value price tx := by
    by_cases h : t.btc_threshold ≤ tx_usd_value price tx <;>
      simp [fetch_large_transactions, h]
  have h4 : monitor_coinbase_pro_orderbook t sym ⟨[(p, q)], []⟩
      = [coinbase_order sym "buy" (p, q)] ↔ orderbook_threshold t sym ≤ p * q := by
    by_cases h : orderbook_threshold t sym ≤ p * q <;>
      simp [monitor_coinbase_pro_orderbook, h]
  refine ⟨h1, ?_, ?_, h4, ?_⟩
  · by_cases h : t.btc_threshold ≤ tx_usd_value price tx <;>
      simp [fetch_large_transactions, h]
  · intro he
    exact h1.mpr (le_of_eq he.symm)
  · intro he
    exact h4.mpr (le_of_eq he.symm)

/-- C4 witness: a 1 BTC output at price 1000000 meets the 1000000 threshold
exactly and is admitted; an order level whose product equals the symbol's
threshold exactly is admitted. -/
theorem C4_threshold_filter_witness :
    fetch_large_transactions 1000000 ⟨1000000, 500000⟩ [tx_boundary]
      = [build_bitcoin_event 1000000 tx_boundary] ∧
    monitor_coinbase_pro_orderbook ⟨1000000, 500000⟩ "BTC-USD" ⟨[(1000000, 1)], []⟩
      = [coinbase_order "BTC-USD" "buy" (1000000, 1)] := by
  constructor
  · exact (C4_threshold_filter ⟨1000000, 500000⟩ 1000000 1000000 1 tx_boundary "BTC-USD").2.2.1
      (by norm_num [tx_usd_value, total_output, tx_boundary])
  · exact (C4_threshold_filter ⟨1000000, 500000⟩ 1000000 1000000 1 tx_boundary "BTC-USD").2.2.2.2
      (by
        have h : strContains "BTC-USD" "BTC" = true := by decide
        norm_num [orderbook_threshold, h])

/-! ### Claim C5: alert deduplication -/

/-- C5.  With a webhook configured: an unseen fingerprint is sent and marked
seen; any event whose fingerprint is in the seen set is suppressed, so the
same event fed twice yields send-then-suppress; and the seen set only ever
grows. -/
theorem C5_alert_dedup (u : String) (seen : List String) (w w2 : WhaleData)
    (hnew : alert_id w ∉ seen) (hsame : alert_id w2 = alert_id w) :
    send_alert (some u) seen w
      = (AlertAction.sent (format_alert_message w), alert_id w :: seen) ∧
    (∀ s : List String, alert_id w2 ∈ s →
      send_alert (some u) s w2 = (AlertAction.suppressed, s)) ∧
    send_alert (some u) ((send_alert (some u) seen w).2) w2
      = (AlertAction.suppressed, alert_id w :: seen) ∧
    (∀ (s : List String) (e : WhaleData), s ⊆ (send_alert (some u) s e).2) := by
  have h1 : send_alert (some u) seen w
      = (AlertAction.sent (format_alert_message w), alert_id w :: seen) := by
    simp [send_alert, hnew]
  refine ⟨h1, ?_, ?_, ?_⟩
  · intro s hs
    simp [send_alert, hs]
  · rw [h1]
    simp [send_alert, hsame]
  · intro s e
    by_cases h : alert_id e ∈ s <;> simp [send_alert, h, List.subset_cons_of_subset]

/-- C5 witness: the Scenario D order fed twice from an empty seen set is sent
first and suppressed second. -/
theorem C5_alert_dedup_witness :
    send_alert (some "hook") [] sample_order
      = (AlertAction.sent (format_alert_message sample_order), [alert_id sample_order]) ∧
    send_alert (some "hook") [alert_id sample_order] sample_order
      = (AlertAction.suppressed, [alert_id sample_order]) :=
  ⟨(C5_alert_dedup "hook" [] sample_order sample_order (List.not_mem_nil _) rfl).1,
   (C5_alert_dedup "hook" [] sample_order sample_order (List.not_mem_nil _) rfl).2.1
     [alert_id sample_order] (List.mem_singleton.mpr rfl)⟩

/-! ### Claim C6: threshold configuration -/

/-- C6 counterexample.  The `whale_config` command performs no validation: a
negative requested value is assigned, not rejected, so the prior threshold is
not retained. -/
theorem C6_config_counterexample :
    (whale_config ⟨1000000, 500000⟩ (some (-5)) none).btc_threshold = (-5 : ℚ) ∧
    (whale_config ⟨1000000, 500000⟩ (some (-5)) none).btc_threshold ≠ (1000000 : ℚ) := by
  constructor <;> norm_num [whale_config]

/-- C6 as amended: every supplied value — negative values included — takes
effect immediately and unconditionally for the named asset, the other
threshold is untouched, and the prior value is retained only when no value is
supplied. -/
theorem C6_config_amended (t : Thresholds) (v : Int) :
    (whale_config t (some v) none).btc_threshold = (v : ℚ) ∧
    (whale_config t (some v) none).eth_threshold = t.eth_threshold ∧
    (whale_config t none (some v)).eth_threshold = (v : ℚ) ∧
    (whale_config t none (some v)).btc_threshold = t.btc_threshold ∧
    whale_config t none none = t :=
  ⟨rfl, rfl, rfl, rfl, rfl⟩

/-! ### Claim C7: order-book event production -/

/-- C7.  The order-book scan equals: qualifying bid levels as buy orders, in
input order, followed by qualifying ask levels as sell orders, in input
order, where a level qualifies iff price * quantity reaches the symbol's
threshold; each order carries usdValue = price * quantity; and a single level
produces exactly one event iff it qualifies, none otherwise. -/
theorem C7_orderbook_events (t : Thresholds) (sym : String) (book : OrderBook) :
    monitor_coinbase_pro_orderbook t sym book =
      ((book.bids.filter fun l => decide (orderbook_threshold t sym ≤ l.1 * l.2)).map
          (coinbase_order sym "buy"))
      ++ ((book.asks.filter fun l => decide (orderbook_threshold t sym ≤ l.1 * l.2)).map
          (coinbase_order sym "sell")) ∧
    (∀ p q : ℚ, ∀ side : String, (coinbase_order sym side (p, q)).usd_value = some (p * q)) ∧
    (∀ p q : ℚ, (monitor_coinbase_pro_orderbook t sym ⟨[(p, q)], []⟩).length =
      if orderbook_threshold t sym ≤ p * q then 1 else 0) := by
  refine ⟨?_, fun p q side => rfl, ?_⟩
  · unfold monitor_coinbase_pro_orderbook
    rw [filterMap_guard, filterMap_guard]
  · intro p q
    by_cases h : orderbook_threshold t sym ≤ p * q <;>
      simp [monitor_coinbase_pro_orderbook, h]

/-! ### Claim C8: formatter totality and fallback -/

/-- C8.  The formatter succeeds on every event produced by any of the four
batch builders, and on any event whose variant tag it does not recognize it
returns the generic fallback built from the event's usd_value with default
0. -/
theorem C8_formatter_total (price eprice : ℚ) (t : Thresholds) (txs : List RawTx)
    (etxs : List EthRawTx) (sym symg : String) (book bookg : OrderBook) (w : WhaleData) :
    (∀ e ∈ fetch_large_transactions price t txs, (format_alert_message e).isSome = true) ∧
    (∀ e ∈ fetch_large_eth_transfers eprice t etxs, (format_alert_message e).isSome = true) ∧
    (∀ e ∈ monitor_coinbase_pro_orderbook t sym book,
      (format_alert_message e).isSome = true) ∧
    (∀ e ∈ monitor_gemini_orderbook t symg bookg, (format_alert_message e).isSome = true) ∧
    (w.type ≠ "bitcoin_transfer" → w.type ≠ "ethereum_transfer" →
      w.type ≠ "exchange_order" →
      format_alert_message w = some (fallback_message (w.usd_value.getD 0))) := by
  refine ⟨?_, ?_, ?_, ?_, ?_⟩
  · intro e he
    simp only [fetch_large_transactions, List.mem_filterMap] at he
    obtain ⟨tx, -, heq⟩ := he
    split at heq
    · cases heq
      simp [format_alert_message, build_bitcoin_event]
    · cases heq
  · intro e he
    simp only [fetch_large_eth_transfers, List.mem_filterMap] at he
    obtain ⟨tx, -, heq⟩ := he
    split at heq
    · split at heq
      · cases heq
        simp [format_alert_message]
      · cases heq
    · cases heq
  · intro e he
    simp only [monitor_coinbase_pro_orderbook, List.mem_append, List.mem_filterMap] at he
    rcases he with ⟨l, -, heq⟩ | ⟨l, -, heq⟩ <;>
      (split at heq
       · cases heq
         simp [format_alert_message, coinbase_order]
       · cases heq)
  · intro e he
    simp only [monitor_gemini_orderbook, List.mem_append, List.mem_filterMap] at he
    rcases he with ⟨l, -, heq⟩ | ⟨l, -, heq⟩ <;>
      (split at heq
       · cases heq
         simp [format_alert_message, gemini_order]
       · cases heq)
  · intro h1 h2 h3
    simp [format_alert_message, h1, h2, h3]

/-- C8 witness: the Scenario D order formats successfully, and an event with
the unrecognized tag dex_swap takes the generic fallback. -/
theorem C8_formatter_total_witness :
    (format_alert_message sample_order).isSome = true ∧
    format_alert_message dex_event = some (fallback_message 42) := by
  have hbook : monitor_coinbase_pro_orderbook ⟨1000000, 500000⟩ "BTC-USD"
      ⟨[(70000, 20)], []⟩ = [sample_order] := by
    have h : strContains "BTC-USD" "BTC" = true := by decide
    have harith : (1000000 : ℚ) ≤ 70000 * 20 := by norm_num
    simp [monitor_coinbase_pro_orderbook, orderbook_threshold, h, harith, sample_order]
  constructor
  · exact (C8_formatter_total 1 1 ⟨1000000, 500000⟩ [] [] "BTC-USD" "x"
      ⟨[(70000, 20)], []⟩ ⟨[], []⟩ dex_event).2.2.1 sample_order
      (by rw [hbook]; exact List.mem_singleton.mpr rfl)
  · exact (C8_formatter_total 1 1 ⟨1000000, 500000⟩ [] [] "BTC-USD" "x"
      ⟨[(70000, 20)], []⟩ ⟨[], []⟩ dex_event).2.2.2.2 (by decide) (by decide) (by decide)

/-! ### Claim C9: no-webhook mode leaves the seen set alone -/

/-- C9.  Without a webhook URL the alert sender logs the formatted message
and returns with the seen set unchanged, for every event and every current
seen set — so repeated presentation produces output every time and duplicate
suppression exists only in the webhook-configured mode. -/
theorem C9_no_webhook_frame (seen : List String) (w : WhaleData) :
    send_alert none seen w = (AlertAction.logged (format_alert_message w), seen) :=
  rfl

/-! ### Claim C10: order-book threshold selection by substring -/

/-- C10.  Order-book threshold selection is decided solely by the BTC
substring test (lowercase for Gemini): any symbol without the substring is
filtered against the ETH threshold, and its levels are processed normally
rather than rejected or skipped. -/
theorem C10_symbol_threshold (t : Thresholds) (book : OrderBook) (sym symg : String)
    (h : strContains sym "BTC" = false) (hg : strContains symg "btc" = false) :
    orderbook_threshold t sym = t.eth_threshold ∧
    gemini_threshold t symg = t.eth_threshold ∧
    monitor_coinbase_pro_orderbook t sym book =
      (book.bids.filterMap fun l =>
        if t.eth_threshold ≤ l.1 * l.2 then some (coinbase_order sym "buy" l) else none)
      ++ (book.asks.filterMap fun l =>
        if t.eth_threshold ≤ l.1 * l.2 then some (coinbase_order sym "sell" l) else none) ∧
    monitor_gemini_orderbook t symg book =
      (book.bids.filterMap fun l =>
        if t.eth_threshold ≤ l.1 * l.2 then some (gemini_order symg "buy" l) else none)
      ++ (book.asks.filterMap fun l =>
        if t.eth_threshold ≤ l.1 * l.2 then some (gemini_order symg "sell" l) else none) := by
  have ht : orderbook_threshold t sym = t.eth_threshold := by
    simp [orderbook_threshold, h]
  have htg : gemini_threshold t symg = t.eth_threshold := by
    simp [gemini_threshold, hg]
  exact ⟨ht, htg,
    by simp only [monitor_coinbase_pro_orderbook, ht],
    by simp only [monitor_gemini_orderbook, htg]⟩

/-- C10 witness: the unrecognized symbol SOL-USD on Coinbase Pro and solusd
on Gemini are both filtered against the ETH threshold. -/
theorem C10_symbol_threshold_witness :
    orderbook_threshold ⟨1000000, 500000⟩ "SOL-USD" = (500000 : ℚ) ∧
    gemini_threshold ⟨1000000, 500000⟩ "solusd" = (500000 : ℚ) :=
  ⟨(C10_symbol_threshold ⟨1000000, 500000⟩ ⟨[], []⟩ "SOL-USD" "solusd"
      (by decide) (by decide)).1,
   (C10_symbol_threshold ⟨1000000, 500000⟩ ⟨[], []⟩ "SOL-USD" "solusd"
      (by decide) (by decide)).2.1⟩

end Leviathan
